import Mathlib

/-!
Verification of the bootstrap and interactive dispatch loop of
DeepResearchAgent (`main.py`).

The program is shallowly embedded as pure Lean functions:

* every call to a collaborator (argument parsing, config build, logger init,
  model-registry population, agent construction, and the asynchronous
  `run` of the root agent) is modelled by its outcome, success or raised error;
* the observable behaviour of `main` (console prints, prompts, log writes,
  dispatches of the root agent, and the begin/end of each initialization
  stage) is recorded chronologically in a trace of events;
* the interactive `while True:` loop (lines 61-83 of `main.py`) is a
  structurally recursive function over the list of lines the user will type;
  exhausting that list models `input()` raising `EOFError`.
-/

/-- Outcome of one awaited call `agent.run(task)` (`main.py` line 75).
`ok res` models a normal return whose printed form is `res`;
`exc msg` models a raised error that is an instance of the Python class `Exception`
(the class caught at line 79), with `str(e) = msg`;
`fatal msg` models a raised `BaseException` that is *not* an `Exception`
(for example `KeyboardInterrupt`), which line 79 does not catch. -/
inductive RunOutcome where
  | ok (res : String)
  | exc (msg : String)
  | fatal (msg : String)
  deriving DecidableEq, Repr

/-- The root agent as observed by the loop: the outcome of its `run` method,
possibly depending on how many dispatches happened before (its call index),
and on the task string. -/
abbrev Agent := Nat → String → RunOutcome

/-- The five initialization stages of `main.py` lines 36-51, in program
order: `parse_args()`, `config.init_config`, `logger.init_logger`,
`model_manager.init_models`, `create_agent`. -/
inductive Stage where
  | parseArgs
  | configInit
  | loggerInit
  | modelsInit
  | agentCreate
  deriving DecidableEq, Repr

/-- One observable event of `main`.  Each `print` statement of the source
with a dynamically built payload gets its own constructor (so the trace
records which statement executed and with which data); `print` carries the
statically fixed console lines.  `stageStart s` / `stageEnd s` mark the
moment the call implementing stage `s` begins / returns normally. -/
inductive Ev where
  | stageStart (s : Stage)
  | stageEnd (s : Stage)
  | logInfo (msg : String)
  | logError (msg : String)
  | visualizeTree
  | print (msg : String)
  | prompt
  | printProcessing (task : String)
  | sepOpen
  | sepClose
  | printResult (res : String)
  | printTaskError (msg : String)
  | runCall (task : String)
  deriving DecidableEq, Repr

/-- How the process ends: `ok` is a normal return of `main` (explicit quit,
line 66), `initError s e` is the unhandled error `e` raised by
initialization stage `s`, `eof` is the unhandled `EOFError` raised by
`input()` once the input stream is exhausted, and `fatal m` is an unhandled
non-`Exception` `BaseException` escaping from `agent.run`. -/
inductive MainExit where
  | ok
  | initError (s : Stage) (msg : String)
  | eof
  | fatal (msg : String)
  deriving DecidableEq, Repr

/-- Process exit status: 0 when `main` returns normally, 1 (non-zero) when
an exception propagates out of `asyncio.run(main())`. -/
def exitCode : MainExit → Nat
  | MainExit.ok => 0
  | _ => 1

/-- The characters that the Python method `str.strip()` removes (ASCII fragment). -/
def pyWhitespace (c : Char) : Bool :=
  c = ' ' || c = '\t' || c = '\n' || c = '\r' || c = '\x0b' || c = '\x0c'

/-- Python `str.strip()`: drop whitespace from both ends (`main.py` line 62). -/
def pyStrip (s : String) : String :=
  String.mk (((s.data.dropWhile pyWhitespace).reverse.dropWhile pyWhitespace).reverse)

/-- Python `str.lower()` on one ASCII character. -/
def pyLowerChar (c : Char) : Char :=
  if 'A' ≤ c && c ≤ 'Z' then Char.ofNat (c.toNat + 32) else c

/-- Python `str.lower()` (ASCII fragment), used at `main.py` line 64. -/
def pyLower (s : String) : String := String.mk (s.data.map pyLowerChar)

/-- The quit-token list of `main.py` line 64. -/
def quitTokens : List String := ["quit", "exit", "q"]

/-- The test of `main.py` line 64: lowercased membership in `quitTokens`. -/
def isQuit (task : String) : Bool := quitTokens.contains (pyLower task)

/-- The string printed at `main.py` line 83. -/
def nextTaskMsg : String := "\nEnter your next task (or 'quit' to exit):"

/-- The separator rule `"-" * 50` of `main.py` lines 74 and 76. -/
def dashRule : String := String.mk (List.replicate 50 '-')

/-- The banner rule `"=" * 60` of `main.py` lines 55 and 57. -/
def eqRule : String := String.mk (List.replicate 60 '=')

/-- The console text of an event, when the event writes to the console
(`none` for log writes, stage markers, dispatches and tree visualization). -/
def evText : Ev → Option String
  | Ev.print s => some s
  | Ev.prompt => some "\n> "
  | Ev.printProcessing t => some ("\nProcessing task: " ++ t)
  | Ev.sepOpen => some dashRule
  | Ev.sepClose => some dashRule
  | Ev.printResult r => some ("Final Result: " ++ r)
  | Ev.printTaskError e => some ("Error processing task: " ++ e)
  | _ => none

/-- Events of one successful dispatch iteration: `main.py` lines 62, 73-78
and 83, for trimmed task `t` whose run returned `res`. -/
def okBlock (t res : String) : List Ev :=
  [Ev.prompt, Ev.printProcessing t, Ev.sepOpen, Ev.runCall t,
   Ev.sepClose, Ev.printResult res,
   Ev.logInfo ("| Result: " ++ res), Ev.print nextTaskMsg]

/-- Events of one failed dispatch iteration: `main.py` lines 62, 73-75
(where `run` raises an `Exception`), 80-81 and 83, for trimmed task `t`
whose run raised `e`. -/
def errBlock (t e : String) : List Ev :=
  [Ev.prompt, Ev.printProcessing t, Ev.sepOpen, Ev.runCall t,
   Ev.printTaskError e,
   Ev.logError ("Error processing task: " ++ e), Ev.print nextTaskMsg]

/-- Events of a dispatch iteration cut short by a non-`Exception`
`BaseException`: lines 62, 73-75 only; the `except Exception` clause does
not fire and the error escapes the loop. -/
def fatalEvs (t : String) : List Ev :=
  [Ev.prompt, Ev.printProcessing t, Ev.sepOpen, Ev.runCall t]

/-- The interactive loop, `main.py` lines 61-83.  `k` counts the dispatches
performed so far (the call index passed to the agent model), `inputs` is the
list of lines still to be typed.  An exhausted input list makes `input()`
raise `EOFError`, which nothing catches: the loop ends with `MainExit.eof`
after the prompt of line 62 was shown. -/
def loop (agent : Agent) (k : Nat) : List String → List Ev × MainExit
  | [] => ([Ev.prompt], MainExit.eof)
  | line :: rest =>
    let task := pyStrip line
    if isQuit task then
      ([Ev.prompt, Ev.print "Goodbye!"], MainExit.ok)
    else if task = "" then
      let r := loop agent k rest
      (Ev.prompt :: Ev.print "Please enter a task." :: r.1, r.2)
    else
      match agent k task with
      | RunOutcome.ok res =>
        let r := loop agent (k + 1) rest
        (okBlock task res ++ r.1, r.2)
      | RunOutcome.exc e =>
        let r := loop agent (k + 1) rest
        (errBlock task e ++ r.1, r.2)
      | RunOutcome.fatal m =>
        (fatalEvs task, MainExit.fatal m)

/-- The collaborators `main` calls during initialization, modelled by their
outcomes, together with the configuration data that appears in the startup
log lines.  `Except.error e` models the call raising error `e`. -/
structure Env where
  parse_args : Except String Unit
  init_config : Except String Unit
  init_logger : Except String Unit
  init_models : Except String Unit
  create_agent : Except String Agent
  log_path : String
  pretty_text : String
  registed_models : List String

/-- The events of a fully successful initialization, `main.py` lines 36-52:
stage markers interleaved with the startup log writes of lines 43, 44, 48
and the agent-tree visualization of line 52. -/
def initEvs (env : Env) : List Ev :=
  [Ev.stageStart Stage.parseArgs, Ev.stageEnd Stage.parseArgs,
   Ev.stageStart Stage.configInit, Ev.stageEnd Stage.configInit,
   Ev.stageStart Stage.loggerInit, Ev.stageEnd Stage.loggerInit,
   Ev.logInfo ("| Logger initialized at: " ++ env.log_path),
   Ev.logInfo ("| Config:\n" ++ env.pretty_text),
   Ev.stageStart Stage.modelsInit, Ev.stageEnd Stage.modelsInit,
   Ev.logInfo ("| Registed models: " ++ String.intercalate ", " env.registed_models),
   Ev.stageStart Stage.agentCreate, Ev.stageEnd Stage.agentCreate,
   Ev.visualizeTree]

/-- The session banner, `main.py` lines 55-59. -/
def bannerEvs : List Ev :=
  [Ev.print ("\n" ++ eqRule),
   Ev.print "DeepResearchAgent - Hierarchical Agent Interactive Mode",
   Ev.print eqRule,
   Ev.print "Available agents: deep_analyzer_agent, browser_use_agent, deep_researcher_agent",
   Ev.print "Enter your task (or 'quit' to exit):"]

/-- The whole of `async def main()` (`main.py` lines 34-83): the five
initialization stages in program order, each aborting the process when its
call raises, then the banner and the interactive loop.  The result is the
chronological event trace and how the process ends. -/
def pyMain (env : Env) (inputs : List String) : List Ev × MainExit :=
  match env.parse_args with
  | Except.error e => ([Ev.stageStart Stage.parseArgs], MainExit.initError Stage.parseArgs e)
  | Except.ok _ =>
    match env.init_config with
    | Except.error e =>
      ([Ev.stageStart Stage.parseArgs, Ev.stageEnd Stage.parseArgs,
        Ev.stageStart Stage.configInit], MainExit.initError Stage.configInit e)
    | Except.ok _ =>
      match env.init_logger with
      | Except.error e =>
        ([Ev.stageStart Stage.parseArgs, Ev.stageEnd Stage.parseArgs,
          Ev.stageStart Stage.configInit, Ev.stageEnd Stage.configInit,
          Ev.stageStart Stage.loggerInit], MainExit.initError Stage.loggerInit e)
      | Except.ok _ =>
        match env.init_models with
        | Except.error e =>
          ([Ev.stageStart Stage.parseArgs, Ev.stageEnd Stage.parseArgs,
            Ev.stageStart Stage.configInit, Ev.stageEnd Stage.configInit,
            Ev.stageStart Stage.loggerInit, Ev.stageEnd Stage.loggerInit,
            Ev.logInfo ("| Logger initialized at: " ++ env.log_path),
            Ev.logInfo ("| Config:\n" ++ env.pretty_text),
            Ev.stageStart Stage.modelsInit], MainExit.initError Stage.modelsInit e)
        | Except.ok _ =>
          match env.create_agent with
          | Except.error e =>
            ([Ev.stageStart Stage.parseArgs, Ev.stageEnd Stage.parseArgs,
              Ev.stageStart Stage.configInit, Ev.stageEnd Stage.configInit,
              Ev.stageStart Stage.loggerInit, Ev.stageEnd Stage.loggerInit,
              Ev.logInfo ("| Logger initialized at: " ++ env.log_path),
              Ev.logInfo ("| Config:\n" ++ env.pretty_text),
              Ev.stageStart Stage.modelsInit, Ev.stageEnd Stage.modelsInit,
              Ev.logInfo ("| Registed models: " ++ String.intercalate ", " env.registed_models),
              Ev.stageStart Stage.agentCreate], MainExit.initError Stage.agentCreate e)
          | Except.ok agent =>
            let r := loop agent 0 inputs
            (initEvs env ++ (bannerEvs ++ r.1), r.2)

/-- The first initialization stage whose collaborator raises, with its
error, in the short-circuit order of `main.py` lines 36-51; `none` when the
whole pipeline succeeds. -/
def firstFailure (env : Env) : Option (Stage × String) :=
  match env.parse_args with
  | Except.error e => some (Stage.parseArgs, e)
  | Except.ok _ =>
    match env.init_config with
    | Except.error e => some (Stage.configInit, e)
    | Except.ok _ =>
      match env.init_logger with
      | Except.error e => some (Stage.loggerInit, e)
      | Except.ok _ =>
        match env.init_models with
        | Except.error e => some (Stage.modelsInit, e)
        | Except.ok _ =>
          match env.create_agent with
          | Except.error e => some (Stage.agentCreate, e)
          | Except.ok _ => none


/-- `a` happens before `b` in a trace: every occurrence of `b` is strictly
preceded by an occurrence of `a`. -/
abbrev before (evs : List Ev) (a b : Ev) : Prop :=
  ∀ j : Nat, evs[j]? = some b → ∃ i : Nat, i < j ∧ evs[i]? = some a

/-- Boolean scan deciding `before` on concretely built traces: reaching `a`
before any `b` validates the whole trace. -/
def beforeB (a b : Ev) : List Ev → Bool
  | [] => true
  | x :: l => if x = b then false else if x = a then true else beforeB a b l

/-- The tasks handed to `agent.run`, in trace order. -/
def runCalls (evs : List Ev) : List String :=
  evs.filterMap fun e => match e with | Ev.runCall t => some t | _ => none

/-- Keep only the input-read prompts and the dispatches. -/
def isPromptOrRun : Ev → Bool
  | Ev.prompt => true
  | Ev.runCall _ => true
  | _ => false

/-- The prompt/dispatch skeleton of a session over the given input lines:
one prompt per read line, each dispatched task appearing right after the
prompt that read it, cut short by a quit line or a fatal dispatch. -/
def altList (agent : Agent) (k : Nat) : List String → List Ev
  | [] => [Ev.prompt]
  | line :: rest =>
    let task := pyStrip line
    if isQuit task then [Ev.prompt]
    else if task = "" then Ev.prompt :: altList agent k rest
    else
      match agent k task with
      | RunOutcome.fatal _ => [Ev.prompt, Ev.runCall task]
      | _ => Ev.prompt :: Ev.runCall task :: altList agent (k + 1) rest

/-- Checks that every dispatch in a prompt/dispatch skeleton immediately
follows its own prompt (`prev` records whether the previous event was a
prompt): no second task starts while one is in flight, and no task starts
before a line was read for it. -/
def promptEachRun (prev : Bool) : List Ev → Bool
  | [] => true
  | Ev.prompt :: l => promptEachRun true l
  | Ev.runCall _ :: l => prev && promptEachRun false l
  | _ :: l => promptEachRun false l

/-- A root agent whose run always raises an `Exception` (concrete witness). -/
def agentAllExc : Agent := fun _ _ => RunOutcome.exc "kaboom"

/-- The stubbed root agent of the spec scenario: returns `"42"` for the task
`compute`, raises otherwise. -/
def agent42 : Agent :=
  fun _ t => if t = "compute" then RunOutcome.ok "42" else RunOutcome.exc "unknown task"

/-- A root agent whose run raises a non-`Exception` `BaseException`
(concrete witness). -/
def agentFatal : Agent := fun _ _ => RunOutcome.fatal "KeyboardInterrupt"

/-- A concrete environment in which all five initialization stages succeed. -/
def envOkSample : Env :=
  { parse_args := Except.ok ()
    init_config := Except.ok ()
    init_logger := Except.ok ()
    init_models := Except.ok ()
    create_agent := Except.ok agent42
    log_path := "workdir/log.txt"
    pretty_text := "cfg"
    registed_models := ["gpt-4o", "claude37-sonnet"] }

/-- A concrete environment in which logger initialization raises. -/
def envLoggerFail : Env :=
  { envOkSample with init_logger := Except.error "cannot create log directory" }

theorem before_of_not_mem {evs : List Ev} {a b : Ev} (h : b ∉ evs) :
    before evs a b := fun _ hj => absurd (List.getElem?_mem hj) h

theorem before_append_of_mem {p : List Ev} {a b : Ev} (q : List Ev)
    (ha : a ∈ p) (hb : b ∉ p) : before (p ++ q) a b := by
  intro j hj
  obtain ⟨i, hi, hpi⟩ := List.getElem_of_mem ha
  have hple : p.length ≤ j := by
    by_contra hlt
    push_neg at hlt
    rw [List.getElem?_append_left hlt] at hj
    exact hb (List.getElem?_mem hj)
  refine ⟨i, lt_of_lt_of_le hi hple, ?_⟩
  rw [List.getElem?_append_left hi, List.getElem?_eq_getElem hi, hpi]

theorem before_append_left {p : List Ev} {a b : Ev} (q : List Ev)
    (h : before p a b) (hb : b ∉ q) : before (p ++ q) a b := by
  intro j hj
  have hjlt : j < p.length := by
    by_contra hge
    push_neg at hge
    rw [List.getElem?_append_right hge] at hj
    exact hb (List.getElem?_mem hj)
  rw [List.getElem?_append_left hjlt] at hj
  obtain ⟨i, hij, hpi⟩ := h j hj
  exact ⟨i, hij, by rw [List.getElem?_append_left (lt_trans hij hjlt)]; exact hpi⟩

theorem before_cons {l : List Ev} {a b x : Ev} (hbx : b ≠ x) (h : before l a b) :
    before (x :: l) a b := by
  intro j hj
  match j with
  | 0 => simp at hj; exact absurd hj.symm hbx
  | j' + 1 =>
    rw [List.getElem?_cons_succ] at hj
    obtain ⟨i, hij, hli⟩ := h j' hj
    exact ⟨i + 1, Nat.succ_lt_succ hij, by rw [List.getElem?_cons_succ]; exact hli⟩

theorem before_head {l : List Ev} {a b : Ev} (hba : b ≠ a) : before (a :: l) a b := by
  intro j hj
  match j with
  | 0 => simp at hj; exact absurd hj.symm hba
  | j' + 1 => exact ⟨0, Nat.succ_pos j', by simp⟩

theorem before_of_beforeB {a b : Ev} {l : List Ev} (h : beforeB a b l = true) :
    before l a b := by
  induction l with
  | nil => exact fun j hj => by simp at hj
  | cons x l ih =>
    rw [beforeB] at h
    by_cases hxb : x = b
    · simp [hxb] at h
    · by_cases hxa : x = a
      · exact hxa ▸ before_head fun hba => hxb (hxa ▸ hba.symm)
      · simp only [if_neg hxb, if_neg hxa] at h
        exact before_cons (fun hbx => hxb hbx.symm) (ih h)

theorem loop_nil (agent : Agent) (k : Nat) :
    loop agent k [] = ([Ev.prompt], MainExit.eof) := rfl

theorem loop_quit {line : String} (agent : Agent) (k : Nat) (rest : List String)
    (h : isQuit (pyStrip line) = true) :
    loop agent k (line :: rest) = ([Ev.prompt, Ev.print "Goodbye!"], MainExit.ok) := by
  simp [loop, h]

theorem isQuit_empty_false : isQuit "" = false := rfl

theorem loop_empty {line : String} (agent : Agent) (k : Nat) (rest : List String)
    (he : pyStrip line = "") :
    loop agent k (line :: rest) =
      (Ev.prompt :: Ev.print "Please enter a task." :: (loop agent k rest).1,
       (loop agent k rest).2) := by
  simp [loop, he, isQuit_empty_false]

theorem loop_ok {line res : String} {agent : Agent} {k : Nat} (rest : List String)
    (hq : isQuit (pyStrip line) = false) (he : pyStrip line ≠ "")
    (hr : agent k (pyStrip line) = RunOutcome.ok res) :
    loop agent k (line :: rest) =
      (okBlock (pyStrip line) res ++ (loop agent (k + 1) rest).1,
       (loop agent (k + 1) rest).2) := by
  simp [loop, hq, he, hr]

theorem loop_exc {line e : String} {agent : Agent} {k : Nat} (rest : List String)
    (hq : isQuit (pyStrip line) = false) (he : pyStrip line ≠ "")
    (hr : agent k (pyStrip line) = RunOutcome.exc e) :
    loop agent k (line :: rest) =
      (errBlock (pyStrip line) e ++ (loop agent (k + 1) rest).1,
       (loop agent (k + 1) rest).2) := by
  simp [loop, hq, he, hr]

theorem loop_fatal {line m : String} {agent : Agent} {k : Nat} (rest : List String)
    (hq : isQuit (pyStrip line) = false) (he : pyStrip line ≠ "")
    (hr : agent k (pyStrip line) = RunOutcome.fatal m) :
    loop agent k (line :: rest) = (fatalEvs (pyStrip line), MainExit.fatal m) := by
  simp [loop, hq, he, hr]

theorem loop_no_stage (agent : Agent) (inputs : List String) (k : Nat) (s : Stage) :
    Ev.stageStart s ∉ (loop agent k inputs).1 ∧ Ev.stageEnd s ∉ (loop agent k inputs).1 := by
  induction inputs generalizing k with
  | nil => simp [loop_nil]
  | cons line rest ih =>
    cases hq : isQuit (pyStrip line) with
    | true => simp [loop_quit agent k rest hq]
    | false =>
      by_cases he : pyStrip line = ""
      · rw [loop_empty agent k rest he]
        simp [(ih k).1, (ih k).2]
      · cases ho : agent k (pyStrip line) with
        | ok res =>
          rw [loop_ok rest hq he ho]
          simp [okBlock, (ih (k + 1)).1, (ih (k + 1)).2]
        | exc e =>
          rw [loop_exc rest hq he ho]
          simp [errBlock, (ih (k + 1)).1, (ih (k + 1)).2]
        | fatal m =>
          rw [loop_fatal rest hq he ho]
          simp [fatalEvs]

/-- C2: initialization stages execute in strict order — configuration
resolution completes before logger initialization begins, logger
initialization before model-registry population, model-registry population
before agent-tree construction, and agent-tree construction before the
first interactive prompt (argument parsing likewise precedes configuration
resolution); no stage begins before its predecessor completes. -/
theorem c2_init_stage_ordering (env : Env) (inputs : List String) :
    before (pyMain env inputs).1 (Ev.stageEnd Stage.parseArgs) (Ev.stageStart Stage.configInit) ∧
    before (pyMain env inputs).1 (Ev.stageEnd Stage.configInit) (Ev.stageStart Stage.loggerInit) ∧
    before (pyMain env inputs).1 (Ev.stageEnd Stage.loggerInit) (Ev.stageStart Stage.modelsInit) ∧
    before (pyMain env inputs).1 (Ev.stageEnd Stage.modelsInit) (Ev.stageStart Stage.agentCreate) ∧
    before (pyMain env inputs).1 (Ev.stageEnd Stage.agentCreate) Ev.prompt := by
  cases hpa : env.parse_args with
  | error e =>
    simp only [pyMain, hpa]
    exact ⟨before_of_beforeB rfl, before_of_beforeB rfl, before_of_beforeB rfl,
           before_of_beforeB rfl, before_of_beforeB rfl⟩
  | ok upa =>
    cases hci : env.init_config with
    | error e =>
      simp only [pyMain, hpa, hci]
      exact ⟨before_of_beforeB rfl, before_of_beforeB rfl, before_of_beforeB rfl,
             before_of_beforeB rfl, before_of_beforeB rfl⟩
    | ok uci =>
      cases hli : env.init_logger with
      | error e =>
        simp only [pyMain, hpa, hci, hli]
        exact ⟨before_of_beforeB rfl, before_of_beforeB rfl, before_of_beforeB rfl,
               before_of_beforeB rfl, before_of_beforeB rfl⟩
      | ok uli =>
        cases hmi : env.init_models with
        | error e =>
          simp only [pyMain, hpa, hci, hli, hmi]
          exact ⟨before_of_beforeB rfl, before_of_beforeB rfl, before_of_beforeB rfl,
                 before_of_beforeB rfl, before_of_beforeB rfl⟩
        | ok umi =>
          cases hca : env.create_agent with
          | error e =>
            simp only [pyMain, hpa, hci, hli, hmi, hca]
            exact ⟨before_of_beforeB rfl, before_of_beforeB rfl, before_of_beforeB rfl,
                   before_of_beforeB rfl, before_of_beforeB rfl⟩
          | ok agent =>
            simp only [pyMain, hpa, hci, hli, hmi, hca]
            rw [← List.append_assoc]
            have hnostage : ∀ s : Stage,
                Ev.stageStart s ∉ (loop agent 0 inputs).1 :=
              fun s => (loop_no_stage agent inputs 0 s).1
            refine ⟨?_, ?_, ?_, ?_, ?_⟩
            · exact before_append_left _ (before_of_beforeB rfl) (hnostage _)
            · exact before_append_left _ (before_of_beforeB rfl) (hnostage _)
            · exact before_append_left _ (before_of_beforeB rfl) (hnostage _)
            · exact before_append_left _ (before_of_beforeB rfl) (hnostage _)
            · refine before_append_of_mem _ ?_ ?_
              · simp [initEvs, bannerEvs]
              · simp [initEvs, bannerEvs]

theorem c2_witness :
    before (pyMain envOkSample ["quit"]).1
      (Ev.stageEnd Stage.agentCreate) Ev.prompt :=
  (c2_init_stage_ordering envOkSample ["quit"]).2.2.2.2

/-- C3: for every failure in any initialization stage (argument parsing,
configuration build, logger initialization, model-registry population,
agent-tree construction), the raised error is not caught or retried inside
the pipeline — it surfaces unchanged as the process outcome — the process
terminates with a non-zero exit status, and the interactive loop is never
entered: no prompt is shown and the root agent is never dispatched. -/
theorem c3_init_failure_aborts (env : Env) (inputs : List String) (s : Stage) (e : String)
    (h : firstFailure env = some (s, e)) :
    (pyMain env inputs).2 = MainExit.initError s e ∧
    exitCode (pyMain env inputs).2 ≠ 0 ∧
    Ev.prompt ∉ (pyMain env inputs).1 ∧
    ∀ t, Ev.runCall t ∉ (pyMain env inputs).1 := by
  cases hpa : env.parse_args with
  | error e' =>
    simp only [firstFailure, hpa, Option.some.injEq, Prod.mk.injEq] at h
    obtain ⟨hs, he⟩ := h
    subst hs he
    simp [pyMain, hpa, exitCode]
  | ok upa =>
    cases hci : env.init_config with
    | error e' =>
      simp only [firstFailure, hpa, hci, Option.some.injEq, Prod.mk.injEq] at h
      obtain ⟨hs, he⟩ := h
      subst hs he
      simp [pyMain, hpa, hci, exitCode]
    | ok uci =>
      cases hli : env.init_logger with
      | error e' =>
        simp only [firstFailure, hpa, hci, hli, Option.some.injEq, Prod.mk.injEq] at h
        obtain ⟨hs, he⟩ := h
        subst hs he
        simp [pyMain, hpa, hci, hli, exitCode]
      | ok uli =>
        cases hmi : env.init_models with
        | error e' =>
          simp only [firstFailure, hpa, hci, hli, hmi, Option.some.injEq, Prod.mk.injEq] at h
          obtain ⟨hs, he⟩ := h
          subst hs he
          simp [pyMain, hpa, hci, hli, hmi, exitCode]
        | ok umi =>
          cases hca : env.create_agent with
          | error e' =>
            simp only [firstFailure, hpa, hci, hli, hmi, hca,
              Option.some.injEq, Prod.mk.injEq] at h
            obtain ⟨hs, he⟩ := h
            subst hs he
            simp [pyMain, hpa, hci, hli, hmi, hca, exitCode]
          | ok agent =>
            simp only [firstFailure, hpa, hci, hli, hmi, hca] at h
            exact absurd h (by simp)

theorem c3_witness :
    (pyMain envLoggerFail ["quit"]).2 =
        MainExit.initError Stage.loggerInit "cannot create log directory" ∧
    exitCode (pyMain envLoggerFail ["quit"]).2 ≠ 0 ∧
    Ev.prompt ∉ (pyMain envLoggerFail ["quit"]).1 ∧
    ∀ t, Ev.runCall t ∉ (pyMain envLoggerFail ["quit"]).1 :=
  c3_init_failure_aborts envLoggerFail ["quit"] Stage.loggerInit
    "cannot create log directory" rfl

/-- C1: when the run method of the root agent raises an `Exception` on a
dispatched task, the exception is caught exactly at the dispatch boundary:
an error message carrying the description of the exception is printed and
written to the log, and the loop continues as the unmodified loop on the
remaining input lines (so the next task is accepted and processed); in
particular, for any block of consecutive input lines all of whose
dispatches raise, the session outcome is that of the loop on the remaining
lines — the session survives any number of consecutive task failures. -/
theorem c1_error_isolation :
    (∀ (agent : Agent) (k : Nat) (line e : String) (rest : List String),
      pyStrip line ≠ "" → isQuit (pyStrip line) = false →
      agent k (pyStrip line) = RunOutcome.exc e →
      loop agent k (line :: rest) =
        (errBlock (pyStrip line) e ++ (loop agent (k + 1) rest).1,
         (loop agent (k + 1) rest).2) ∧
      Ev.printTaskError e ∈ errBlock (pyStrip line) e ∧
      Ev.logError ("Error processing task: " ++ e) ∈ errBlock (pyStrip line) e) ∧
    (∀ (agent : Agent) (k : Nat) (ts rest : List String),
      (∀ i (hi : i < ts.length),
        pyStrip (ts.get ⟨i, hi⟩) ≠ "" ∧ isQuit (pyStrip (ts.get ⟨i, hi⟩)) = false ∧
        ∃ e, agent (k + i) (pyStrip (ts.get ⟨i, hi⟩)) = RunOutcome.exc e) →
      (loop agent k (ts ++ rest)).2 = (loop agent (k + ts.length) rest).2 ∧
      ∃ pre, (loop agent k (ts ++ rest)).1 = pre ++ (loop agent (k + ts.length) rest).1) := by
  constructor
  · intro agent k line e rest he hq hr
    exact ⟨loop_exc rest hq he hr, by simp [errBlock], by simp [errBlock]⟩
  · intro agent k ts rest hall
    induction ts generalizing k with
    | nil => exact ⟨by simp, [], by simp⟩
    | cons t ts ih =>
      obtain ⟨he, hq, e, hr⟩ := hall 0 (by simp)
      rw [Nat.add_zero] at hr
      have hstep : loop agent k (t :: (ts ++ rest)) =
          (errBlock (pyStrip t) e ++ (loop agent (k + 1) (ts ++ rest)).1,
           (loop agent (k + 1) (ts ++ rest)).2) :=
        loop_exc (ts ++ rest) hq he hr
      have hall' : ∀ i (hi : i < ts.length),
          pyStrip (ts.get ⟨i, hi⟩) ≠ "" ∧ isQuit (pyStrip (ts.get ⟨i, hi⟩)) = false ∧
          ∃ e', agent (k + 1 + i) (pyStrip (ts.get ⟨i, hi⟩)) = RunOutcome.exc e' := by
        intro i hi
        have h := hall (i + 1) (by simpa using Nat.succ_lt_succ hi)
        have hidx : k + (i + 1) = k + 1 + i := by omega
        simpa [List.get_cons_succ, hidx] using h
      obtain ⟨hex, pre, htr⟩ := ih (k + 1) hall'
      have hlen : k + 1 + ts.length = k + (t :: ts).length := by
        simp [List.length_cons]; omega
      rw [List.cons_append]
      constructor
      · rw [hstep, ← hlen]
        exact hex
      · refine ⟨errBlock (pyStrip t) e ++ pre, ?_⟩
        rw [hstep, ← hlen]
        show errBlock (pyStrip t) e ++ (loop agent (k + 1) (ts ++ rest)).1 =
          errBlock (pyStrip t) e ++ pre ++ (loop agent (k + 1 + ts.length) rest).1
        rw [htr, List.append_assoc]

theorem c1_witness :
    loop agentAllExc 0 ["boom", "again"] =
      (errBlock (pyStrip "boom") "kaboom" ++ (loop agentAllExc 1 ["again"]).1,
       (loop agentAllExc 1 ["again"]).2) ∧
    Ev.printTaskError "kaboom" ∈ errBlock (pyStrip "boom") "kaboom" ∧
    Ev.logError ("Error processing task: " ++ "kaboom") ∈ errBlock (pyStrip "boom") "kaboom" :=
  c1_error_isolation.1 agentAllExc 0 "boom" "kaboom" ["again"]
    (by decide) (by decide) rfl

/-- C4: for every input line whose trimmed text case-insensitively equals
one of the quit tokens `quit`, `exit`, `q`, the loop prints the farewell
message and terminates with exit status 0, shows no further prompt (the
trace holds exactly the one prompt that read the line), and never hands
that line to the run entry point of the root agent. -/
theorem c4_quit_terminates (agent : Agent) (k : Nat) (line : String) (rest : List String)
    (h : isQuit (pyStrip line) = true) :
    loop agent k (line :: rest) = ([Ev.prompt, Ev.print "Goodbye!"], MainExit.ok) ∧
    exitCode (loop agent k (line :: rest)).2 = 0 ∧
    (∀ t, Ev.runCall t ∉ (loop agent k (line :: rest)).1) ∧
    (loop agent k (line :: rest)).1.count Ev.prompt = 1 := by
  have hl := loop_quit agent k rest h
  refine ⟨hl, ?_, ?_, ?_⟩
  · rw [hl]
    rfl
  · intro t
    rw [hl]
    simp
  · rw [hl]
    rfl

theorem c4_witness :
    loop agent42 0 [" Quit ", "compute"] = ([Ev.prompt, Ev.print "Goodbye!"], MainExit.ok) ∧
    exitCode (loop agent42 0 [" Quit ", "compute"]).2 = 0 ∧
    (∀ t, Ev.runCall t ∉ (loop agent42 0 [" Quit ", "compute"]).1) ∧
    (loop agent42 0 [" Quit ", "compute"]).1.count Ev.prompt = 1 :=
  c4_quit_terminates agent42 0 " Quit " ["compute"] (by decide)

/-- C5: for every input line that trims to the empty string, the loop
prints the re-prompt nudge and continues as the unmodified loop on the
remaining lines — with the same agent and the same dispatch count — and the
iteration performs no dispatch: the dispatched-task projection of the trace
is unchanged. -/
theorem c5_empty_line_reprompts (agent : Agent) (k : Nat) (line : String)
    (rest : List String) (h : pyStrip line = "") :
    loop agent k (line :: rest) =
      (Ev.prompt :: Ev.print "Please enter a task." :: (loop agent k rest).1,
       (loop agent k rest).2) ∧
    runCalls (loop agent k (line :: rest)).1 = runCalls (loop agent k rest).1 := by
  have hl := loop_empty agent k rest h
  refine ⟨hl, ?_⟩
  rw [hl]
  rfl

theorem c5_witness :
    loop agent42 0 ["   ", "compute"] =
      (Ev.prompt :: Ev.print "Please enter a task." :: (loop agent42 0 ["compute"]).1,
       (loop agent42 0 ["compute"]).2) ∧
    runCalls (loop agent42 0 ["   ", "compute"]).1 =
      runCalls (loop agent42 0 ["compute"]).1 :=
  c5_empty_line_reprompts agent42 0 "   " ["compute"] (by decide)

/-- C8: when the input stream is exhausted, reading the next line raises
outside the dispatch try-block: the loop ends right after showing the
prompt with the unhandled-`EOFError` outcome (non-zero status, not the quit
path), and no per-task error message is printed or logged for it — the
error-isolation guarantee covers only dispatch, not input reading. -/
theorem c8_input_eof_unhandled (agent : Agent) (k : Nat) :
    loop agent k [] = ([Ev.prompt], MainExit.eof) ∧
    (loop agent k []).2 ≠ MainExit.ok ∧
    exitCode (loop agent k []).2 ≠ 0 ∧
    (∀ e, Ev.printTaskError e ∉ (loop agent k []).1) ∧
    ∀ e, Ev.logError e ∉ (loop agent k []).1 := by
  refine ⟨rfl, by simp [loop_nil], by simp [loop_nil, exitCode], ?_, ?_⟩ <;>
    intro e <;> simp [loop_nil]

theorem c8_witness :
    loop agent42 0 [] = ([Ev.prompt], MainExit.eof) ∧
    (loop agent42 0 []).2 ≠ MainExit.ok ∧
    exitCode (loop agent42 0 []).2 ≠ 0 ∧
    (∀ e, Ev.printTaskError e ∉ (loop agent42 0 []).1) ∧
    ∀ e, Ev.logError e ∉ (loop agent42 0 []).1 :=
  c8_input_eof_unhandled agent42 0

/-- C9: the dispatch boundary catches exactly `Exception`-derived errors —
when the run method of the root agent raises a `BaseException` that is not an
`Exception` (for example `KeyboardInterrupt`), the error escapes the loop:
the session ends with that error after the dispatch events, no
`Error processing task` line is printed or logged, and no fresh next-task
prompt is shown. -/
theorem c9_base_exception_propagates (agent : Agent) (k : Nat) (line m : String)
    (rest : List String) (he : pyStrip line ≠ "") (hq : isQuit (pyStrip line) = false)
    (hr : agent k (pyStrip line) = RunOutcome.fatal m) :
    loop agent k (line :: rest) = (fatalEvs (pyStrip line), MainExit.fatal m) ∧
    (loop agent k (line :: rest)).2 ≠ MainExit.ok ∧
    (∀ e, Ev.printTaskError e ∉ (loop agent k (line :: rest)).1) ∧
    (∀ e, Ev.logError e ∉ (loop agent k (line :: rest)).1) ∧
    Ev.print nextTaskMsg ∉ (loop agent k (line :: rest)).1 := by
  have hl := loop_fatal rest hq he hr
  refine ⟨hl, ?_, ?_, ?_, ?_⟩
  · rw [hl]
    simp
  · intro e
    rw [hl]
    simp [fatalEvs]
  · intro e
    rw [hl]
    simp [fatalEvs]
  · rw [hl]
    simp [fatalEvs, nextTaskMsg]

theorem c9_witness :
    loop agentFatal 0 ["boom"] = (fatalEvs (pyStrip "boom"), MainExit.fatal "KeyboardInterrupt") ∧
    (loop agentFatal 0 ["boom"]).2 ≠ MainExit.ok ∧
    (∀ e, Ev.printTaskError e ∉ (loop agentFatal 0 ["boom"]).1) ∧
    (∀ e, Ev.logError e ∉ (loop agentFatal 0 ["boom"]).1) ∧
    Ev.print nextTaskMsg ∉ (loop agentFatal 0 ["boom"]).1 :=
  c9_base_exception_propagates agentFatal 0 "boom" "KeyboardInterrupt" []
    (by decide) (by decide) rfl

/-- C10: for every task whose dispatch raises an `Exception`, the
`Processing task` line and the opening separator rule are still emitted,
and both precede the error line, while the closing separator rule and the
`Final Result` line are not emitted in that iteration; the outcome goes to
the log on the error channel there, and on the info channel exactly in the
successful case (where no error-channel write happens). -/
theorem c10_failure_framing :
    (∀ (agent : Agent) (k : Nat) (line e : String) (rest : List String),
      pyStrip line ≠ "" → isQuit (pyStrip line) = false →
      agent k (pyStrip line) = RunOutcome.exc e →
      loop agent k (line :: rest) =
        (errBlock (pyStrip line) e ++ (loop agent (k + 1) rest).1,
         (loop agent (k + 1) rest).2) ∧
      before (errBlock (pyStrip line) e)
        (Ev.printProcessing (pyStrip line)) (Ev.printTaskError e) ∧
      before (errBlock (pyStrip line) e) Ev.sepOpen (Ev.printTaskError e) ∧
      Ev.sepClose ∉ errBlock (pyStrip line) e ∧
      (∀ r, Ev.printResult r ∉ errBlock (pyStrip line) e) ∧
      (∀ s, Ev.logInfo s ∉ errBlock (pyStrip line) e) ∧
      Ev.logError ("Error processing task: " ++ e) ∈ errBlock (pyStrip line) e) ∧
    (∀ (agent : Agent) (k : Nat) (line res : String) (rest : List String),
      pyStrip line ≠ "" → isQuit (pyStrip line) = false →
      agent k (pyStrip line) = RunOutcome.ok res →
      loop agent k (line :: rest) =
        (okBlock (pyStrip line) res ++ (loop agent (k + 1) rest).1,
         (loop agent (k + 1) rest).2) ∧
      Ev.logInfo ("| Result: " ++ res) ∈ okBlock (pyStrip line) res ∧
      ∀ s, Ev.logError s ∉ okBlock (pyStrip line) res) := by
  constructor
  · intro agent k line e rest he hq hr
    refine ⟨loop_exc rest hq he hr, ?_, ?_, ?_, ?_, ?_, ?_⟩
    · simp only [errBlock]
      exact before_cons (by simp) (before_head (by simp))
    · simp only [errBlock]
      exact before_cons (by simp) (before_cons (by simp) (before_head (by simp)))
    · simp [errBlock]
    · intro r
      simp [errBlock]
    · intro s
      simp [errBlock]
    · simp [errBlock]
  · intro agent k line res rest he hq hr
    refine ⟨loop_ok rest hq he hr, by simp [okBlock], ?_⟩
    intro s
    simp [okBlock]

theorem c10_witness :
    (loop agentAllExc 0 ["fail task"] =
      (errBlock (pyStrip "fail task") "kaboom" ++ (loop agentAllExc 1 []).1,
       (loop agentAllExc 1 []).2) ∧
     before (errBlock (pyStrip "fail task") "kaboom")
       (Ev.printProcessing (pyStrip "fail task")) (Ev.printTaskError "kaboom") ∧
     before (errBlock (pyStrip "fail task") "kaboom") Ev.sepOpen (Ev.printTaskError "kaboom") ∧
     Ev.sepClose ∉ errBlock (pyStrip "fail task") "kaboom" ∧
     (∀ r, Ev.printResult r ∉ errBlock (pyStrip "fail task") "kaboom") ∧
     (∀ s, Ev.logInfo s ∉ errBlock (pyStrip "fail task") "kaboom") ∧
     Ev.logError ("Error processing task: " ++ "kaboom") ∈
       errBlock (pyStrip "fail task") "kaboom") ∧
    (loop agent42 0 ["compute"] =
      (okBlock (pyStrip "compute") "42" ++ (loop agent42 1 []).1,
       (loop agent42 1 []).2) ∧
     Ev.logInfo ("| Result: " ++ "42") ∈ okBlock (pyStrip "compute") "42" ∧
     ∀ s, Ev.logError s ∉ okBlock (pyStrip "compute") "42") :=
  ⟨c10_failure_framing.1 agentAllExc 0 "fail task" "kaboom" []
      (by decide) (by decide) rfl,
   c10_failure_framing.2 agent42 0 "compute" "42" []
      (by decide) (by decide) rfl⟩

theorem loop_filter_alt (agent : Agent) (inputs : List String) (k : Nat) :
    (loop agent k inputs).1.filter isPromptOrRun = altList agent k inputs := by
  induction inputs generalizing k with
  | nil => rfl
  | cons line rest ih =>
    cases hq : isQuit (pyStrip line) with
    | true =>
      rw [loop_quit agent k rest hq]
      simp [altList, hq, isPromptOrRun]
    | false =>
      by_cases he : pyStrip line = ""
      · rw [loop_empty agent k rest he]
        simp [altList, hq, he, isQuit_empty_false, isPromptOrRun, ih k]
      · cases ho : agent k (pyStrip line) with
        | ok res =>
          rw [loop_ok rest hq he ho]
          simp [altList, hq, he, ho, okBlock, isPromptOrRun, List.filter_append, ih (k + 1)]
        | exc e =>
          rw [loop_exc rest hq he ho]
          simp [altList, hq, he, ho, errBlock, isPromptOrRun, List.filter_append, ih (k + 1)]
        | fatal m =>
          rw [loop_fatal rest hq he ho]
          simp [altList, hq, he, ho, fatalEvs, isPromptOrRun]

theorem promptEachRun_mono {l : List Ev} (h : promptEachRun false l = true) :
    promptEachRun true l = true := by
  cases l with
  | nil => rfl
  | cons x l =>
    cases x <;>
      first
      | (simp [promptEachRun] at h
         done)
      | (simp only [promptEachRun] at h ⊢
         exact h)

theorem alt_promptEachRun (agent : Agent) (inputs : List String) (k : Nat) :
    promptEachRun false (altList agent k inputs) = true := by
  induction inputs generalizing k with
  | nil => rfl
  | cons line rest ih =>
    cases hq : isQuit (pyStrip line) with
    | true => simp [altList, hq, promptEachRun]
    | false =>
      by_cases he : pyStrip line = ""
      · simp only [altList, hq, he, if_false, if_true, Bool.false_eq_true, reduceIte]
        simp only [promptEachRun]
        exact promptEachRun_mono (ih k)
      · cases ho : agent k (pyStrip line) with
        | ok res =>
          simp only [altList, hq, he, Bool.false_eq_true, reduceIte, ho, promptEachRun]
          simpa using ih (k + 1)
        | exc e =>
          simp only [altList, hq, he, Bool.false_eq_true, reduceIte, ho, promptEachRun]
          simpa using ih (k + 1)
        | fatal m =>
          simp [altList, hq, he, ho, promptEachRun]

theorem loop_exit_ok_goodbye (agent : Agent) (inputs : List String) (k : Nat)
    (h : (loop agent k inputs).2 = MainExit.ok) :
    Ev.print "Goodbye!" ∈ (loop agent k inputs).1 := by
  induction inputs generalizing k with
  | nil => simp [loop_nil] at h
  | cons line rest ih =>
    cases hq : isQuit (pyStrip line) with
    | true =>
      rw [loop_quit agent k rest hq]
      simp
    | false =>
      by_cases he : pyStrip line = ""
      · rw [loop_empty agent k rest he] at h ⊢
        simp only [List.mem_cons]
        exact Or.inr (Or.inr (ih k h))
      · cases ho : agent k (pyStrip line) with
        | ok res =>
          rw [loop_ok rest hq he ho] at h ⊢
          simp only [List.mem_append]
          exact Or.inr (ih (k + 1) h)
        | exc e =>
          rw [loop_exc rest hq he ho] at h ⊢
          simp only [List.mem_append]
          exact Or.inr (ih (k + 1) h)
        | fatal m =>
          rw [loop_fatal rest hq he ho] at h
          simp at h

/-- C6: dispatch is strictly serialized — projecting the session trace to
its prompts and dispatches yields exactly the per-input-line skeleton (one
prompt per line read, tasks dispatched one at a time in the order entered),
in which every dispatch immediately follows the prompt that read its line
(the next line is read only after the previous dispatch returned or
raised); and the loop terminates normally only via the explicit quit path,
which prints the farewell message. -/
theorem c6_one_task_in_flight (agent : Agent) (k : Nat) (inputs : List String) :
    (loop agent k inputs).1.filter isPromptOrRun = altList agent k inputs ∧
    promptEachRun false (altList agent k inputs) = true ∧
    ((loop agent k inputs).2 = MainExit.ok →
      Ev.print "Goodbye!" ∈ (loop agent k inputs).1) :=
  ⟨loop_filter_alt agent inputs k, alt_promptEachRun agent inputs k,
   loop_exit_ok_goodbye agent inputs k⟩

theorem c6_witness :
    (loop agent42 0 ["compute", "quit"]).1.filter isPromptOrRun =
      altList agent42 0 ["compute", "quit"] ∧
    promptEachRun false (altList agent42 0 ["compute", "quit"]) = true ∧
    ((loop agent42 0 ["compute", "quit"]).2 = MainExit.ok →
      Ev.print "Goodbye!" ∈ (loop agent42 0 ["compute", "quit"]).1) :=
  c6_one_task_in_flight agent42 0 ["compute", "quit"]

/-- C7: when initialization succeeds, the session opens with the fixed
banner naming the three top-level agents (`deep_analyzer_agent`,
`browser_use_agent`, `deep_researcher_agent` — the analysis,
browser-automation and research specialists); every dispatched task is
framed by a leading `Processing task` line and a separator rule, followed
on success by a `Final Result` line carrying the returned result (whose
console text for result `res` is `Final Result: res`) and on failure by an
`Error processing task` line; in particular a root agent stubbed to return
`42` for the task `compute` yields a trace containing the
`Final Result: 42` line followed by clean termination on `quit`. -/
theorem c7_banner_and_framing :
    (∀ (env : Env) (agent : Agent) (inputs : List String),
      env.parse_args = Except.ok () → env.init_config = Except.ok () →
      env.init_logger = Except.ok () → env.init_models = Except.ok () →
      env.create_agent = Except.ok agent →
      (pyMain env inputs).1 = initEvs env ++ (bannerEvs ++ (loop agent 0 inputs).1) ∧
      Ev.print "Available agents: deep_analyzer_agent, browser_use_agent, deep_researcher_agent"
        ∈ (pyMain env inputs).1) ∧
    (∀ (agent : Agent) (k : Nat) (line res : String) (rest : List String),
      pyStrip line ≠ "" → isQuit (pyStrip line) = false →
      agent k (pyStrip line) = RunOutcome.ok res →
      loop agent k (line :: rest) =
        (okBlock (pyStrip line) res ++ (loop agent (k + 1) rest).1,
         (loop agent (k + 1) rest).2) ∧
      evText (Ev.printResult res) = some ("Final Result: " ++ res)) ∧
    (∀ (agent : Agent) (k : Nat) (line e : String) (rest : List String),
      pyStrip line ≠ "" → isQuit (pyStrip line) = false →
      agent k (pyStrip line) = RunOutcome.exc e →
      Ev.printTaskError e ∈ (loop agent k (line :: rest)).1) ∧
    (Ev.printResult "42" ∈ (loop agent42 0 ["compute", "quit"]).1 ∧
     (loop agent42 0 ["compute", "quit"]).2 = MainExit.ok ∧
     evText (Ev.printResult "42") = some "Final Result: 42") := by
  refine ⟨?_, ?_, ?_, ?_, ?_, ?_⟩
  · intro env agent inputs h1 h2 h3 h4 h5
    have htr : (pyMain env inputs).1 =
        initEvs env ++ (bannerEvs ++ (loop agent 0 inputs).1) := by
      simp [pyMain, h1, h2, h3, h4, h5]
    refine ⟨htr, ?_⟩
    rw [htr]
    simp [initEvs, bannerEvs]
  · intro agent k line res rest he hq hr
    exact ⟨loop_ok rest hq he hr, rfl⟩
  · intro agent k line e rest he hq hr
    rw [loop_exc rest hq he hr]
    simp [errBlock]
  · decide
  · decide
  · decide

theorem c7_witness :
    ((pyMain envOkSample ["compute", "quit"]).1 =
        initEvs envOkSample ++ (bannerEvs ++ (loop agent42 0 ["compute", "quit"]).1) ∧
      Ev.print "Available agents: deep_analyzer_agent, browser_use_agent, deep_researcher_agent"
        ∈ (pyMain envOkSample ["compute", "quit"]).1) ∧
    (loop agent42 0 ["compute"] =
        (okBlock (pyStrip "compute") "42" ++ (loop agent42 1 []).1,
         (loop agent42 1 []).2) ∧
      evText (Ev.printResult "42") = some ("Final Result: " ++ "42")) ∧
    Ev.printTaskError "kaboom" ∈ (loop agentAllExc 0 ["oops"]).1 :=
  ⟨c7_banner_and_framing.1 envOkSample agent42 ["compute", "quit"] rfl rfl rfl rfl rfl,
   c7_banner_and_framing.2.1 agent42 0 "compute" "42" [] (by decide) (by decide) rfl,
   c7_banner_and_framing.2.2.1 agentAllExc 0 "oops" "kaboom" []
     (by decide) (by decide) rfl⟩
